import Mathlib

set_option maxRecDepth 100000

/-!
Verification development for the `ftp-scan` repository
(`src/ftp_scan/scan.py` and `src/ftp_scan/cli.py`).

The Python source is shallowly embedded below:
* `PPath` models `pathlib.PurePosixPath` (pure POSIX paths: `.` segments and
  empty segments are dropped when parsing, `..` segments are KEPT — pathlib
  never collapses them);
* `PyDateTime`/`mkPyDateTime` model the `datetime.datetime` constructor with
  its validity checks (construction raises on an invalid date, modelled as
  `none`);
* `PyExc` models the Python exception classes that the scanner's
  `try`/`except` blocks distinguish;
* the dataclasses `RegularFile`, `SymbolicLink`, `Directory` and the parsing
  functions `new_from_mlsd_line`, `msDosModDate` (the MS-DOS date block of
  `new_from_dir_line`), `resolve_symlink_target` (the symlink block of
  `new_from_dir_line`) are translated line by line from `scan.py`;
* the SQLite tables are modelled as association lists keyed by the path
  string; `REPLACE INTO t ... (path PRIMARY KEY)` is `replaceInto` (delete
  any row with the key, insert the new row); commits are modelled as taking
  effect immediately (the storage engine's mechanics are external);
* `scan_dir` and the fueled `recScan`/`recScanList` model
  `FTPScanner.scan_dir` and `FTPScanner.recursive_scan_dir`; the fuel bounds
  the nesting depth of recursive calls (the Python recursion is unbounded,
  so "`= none` for every fuel" expresses that the recursion never bottoms
  out);
* `selectFlavour` models the flavour-selection logic of
  `FTPScanner.get_basics` together with the forced flavour from `__init__`.
-/

namespace FtpScan

/-! ## Character-list string helpers

Plain structural-recursion replacements for the core `String` operations
(`startsWith`, `endsWith`, `splitOn`, substring search), so that every
definition evaluates by kernel reduction on concrete inputs. -/

/-- Does the first list occur at the head of the second? -/
def leadsWith : List Char → List Char → Bool
  | [], _ => true
  | _ :: _, [] => false
  | c :: cs, d :: ds => c == d && leadsWith cs ds

/-- `pre.startsWith s`. -/
def strStarts (pre s : String) : Bool := leadsWith pre.toList s.toList

/-- `s.endsWith suffix`. -/
def strEnds (suffix s : String) : Bool :=
  leadsWith suffix.toList.reverse s.toList.reverse

/-- Split on `/`, keeping empty segments (like `str.split('/')`). -/
def splitSlashAux : List Char → List Char → List String
  | cur, [] => [String.mk cur.reverse]
  | cur, c :: cs =>
    if c = '/' then String.mk cur.reverse :: splitSlashAux [] cs
    else splitSlashAux (c :: cur) cs

/-! ## Paths: model of `pathlib.PurePosixPath` -/

/-- A pure POSIX path: an absolute flag plus the list of segments.
Mirrors `PurePosixPath`: parsing drops empty and `.` segments, keeps `..`.
(The POSIX double-slash-root corner case of pathlib is not modelled; no
input in this development starts with exactly `//`.) -/
structure PPath where
  absolute : Bool
  parts : List String
deriving DecidableEq, Repr

/-- `PurePosixPath(s)` for a slash-separated string. -/
def posixPath (s : String) : PPath :=
  { absolute := strStarts "/" s
    parts := (splitSlashAux [] s.toList).filter (fun p => p != "" && p != ".") }

/-- The `/` join operator of `PurePosixPath`: an absolute right operand
replaces the left one; otherwise segments are appended (no collapsing). -/
def PPath.join (p q : PPath) : PPath :=
  if q.absolute then q else { absolute := p.absolute, parts := p.parts ++ q.parts }

/-- Join segments with `/`. -/
def joinSlash : List String → String
  | [] => ""
  | [p] => p
  | p :: ps => p ++ "/" ++ joinSlash ps

/-- `str(PurePosixPath(...))`. -/
def pathStr (p : PPath) : String :=
  if p.absolute then "/" ++ joinSlash p.parts
  else if p.parts = [] then "." else joinSlash p.parts

/-! ## Datetimes: model of `datetime.datetime` construction -/

structure PyDateTime where
  year : Nat
  month : Nat
  day : Nat
  hour : Nat
  minute : Nat
  second : Nat
deriving DecidableEq, Repr

def isLeapYear (y : Nat) : Bool :=
  (y % 4 == 0) && (y % 100 != 0 || y % 400 == 0)

def daysInMonth (y m : Nat) : Nat :=
  if m = 2 then (if isLeapYear y then 29 else 28)
  else if m = 4 ∨ m = 6 ∨ m = 9 ∨ m = 11 then 30
  else 31

/-- The `datetime(...)` constructor: `some` on a valid date, `none` when the
constructor would raise `ValueError` (callers in `scan.py` catch every
exception during date construction and keep `mod_date = None`). -/
def mkPyDateTime (y mo d h mi s : Nat) : Option PyDateTime :=
  if 1 ≤ y ∧ y ≤ 9999 ∧ 1 ≤ mo ∧ mo ≤ 12 ∧ 1 ≤ d ∧ d ≤ daysInMonth y mo
      ∧ h ≤ 23 ∧ mi ≤ 59 ∧ s ≤ 59 then
    some ⟨y, mo, d, h, mi, s⟩
  else none

/-! ## Exceptions.

`queue.Empty` (raised by `Queue.get(timeout=...)`) subclasses `Exception`
directly — it is *not* a `TimeoutError` — so the constructors below are the
exception classes `scan.py`'s handlers can tell apart. -/

inductive PyExc where
  /-- `ftplib.error_perm` -/
  | error_perm (msg : String)
  /-- builtin `TimeoutError` (e.g. socket timeouts) -/
  | timeoutError (msg : String)
  /-- `queue.Empty`, raised by `Queue.get` when the timeout elapses -/
  | queueEmpty
  /-- `KeyError` -/
  | keyError (k : String)
  /-- `ValueError` -/
  | valueError (msg : String)
deriving DecidableEq, Repr

/-- `str(e)` for the caught exception (both handlers store it). -/
def PyExc.msg : PyExc → String
  | .error_perm m => m
  | .timeoutError m => m
  | .queueEmpty => ""
  | .keyError k => k
  | .valueError m => m

/-! ## Small string/number helpers -/

def digitVal (c : Char) : Nat := c.toNat - 48

def allDigits (l : List Char) : Bool := l.all (·.isDigit)

def natOfDigits (l : List Char) : Nat :=
  l.foldl (fun a c => a * 10 + digitVal c) 0

/-- `int(s)` for a base-10 literal: optional sign, then digits.
(Python also strips whitespace and allows `_` between digits; those forms
never occur in MLSD facts and are not modelled.) Raises `ValueError` —
`.error` — on anything else. -/
def pyInt (s : String) : Except PyExc Int :=
  let cs := s.toList
  let sign : Int × List Char :=
    match cs with
    | '-' :: rest => (-1, rest)
    | '+' :: rest => (1, rest)
    | _ => (1, cs)
  if sign.2 ≠ [] ∧ allDigits sign.2 then .ok (sign.1 * (natOfDigits sign.2 : Int))
  else .error (.valueError s)

/-- Does `needle` occur anywhere in the second list? (`pat in s` / substring) -/
def containsSeq (needle : List Char) : List Char → Bool
  | [] => leadsWith needle []
  | c :: cs => leadsWith needle (c :: cs) || containsSeq needle cs

/-- Python's `pat in s` substring test. -/
def strContains (hay pat : String) : Bool := containsSeq pat.toList hay.toList

def isWordChar (c : Char) : Bool := c.isAlphanum || c == '_'

def boundaryAfter (w l : List Char) : Bool :=
  match l.drop w.length with
  | [] => true
  | c :: _ => !(isWordChar c)

def hasWordAux (w : List Char) (prevWord : Bool) : List Char → Bool
  | [] => false
  | c :: cs =>
    (!prevWord && leadsWith w (c :: cs) && boundaryAfter w (c :: cs))
      || hasWordAux w (isWordChar c) cs

/-- Truthiness of `re.findall(r"\bWORD\b", s)` for a word made of word
characters: an occurrence of `w` in `s` delimited by word boundaries. -/
def hasWord (w s : String) : Bool := hasWordAux w.toList false s.toList

/-! ## `parse_ftp_date` (scan.py lines 50–57) -/

/-- `datetime.strptime(s, "%Y%m%d%H%M%S")` on the canonical 14-digit MLSD
`modify` timestamp: four-digit year then two digits each for month, day,
hour, minute, second; anything else fails (`none`). -/
def strptime14 (s : String) : Option PyDateTime :=
  let cs := s.toList
  if cs.length = 14 ∧ allDigits cs then
    mkPyDateTime (natOfDigits (cs.take 4)) (natOfDigits ((cs.drop 4).take 2))
      (natOfDigits ((cs.drop 6).take 2)) (natOfDigits ((cs.drop 8).take 2))
      (natOfDigits ((cs.drop 10).take 2)) (natOfDigits ((cs.drop 12).take 2))
  else none

/-- `parse_ftp_date`: `None` input gives `None`; a parse failure is caught
and gives `None` (never raises). -/
def parse_ftp_date : Option String → Option PyDateTime
  | none => none
  | some s => strptime14 s

/-! ## MS-DOS date reconstruction (scan.py lines 151–169)

The fields are the numeric captures of `MsDosDirRegex`
(`month`, `day`, `year` are two-digit fields, `hour`/`minute` two-digit,
`ampm` is exactly `"AM"` or `"PM"`). -/

/-- The body of the MS-DOS `try` block: two-digit-year adjustment, then
12-hour→24-hour conversion, then `datetime(...)` (whose failure the caller
catches, leaving `mod_date = None`). -/
def msDosModDate (year month day hour minute : Nat) (ampm : String) :
    Option PyDateTime :=
  let year := if 70 ≤ year ∧ year ≤ 99 then year + 1900 else year + 2000
  let hour := if ampm = "PM" then hour + 12 else hour
  let hour := if 24 ≤ hour then hour - 24 else hour
  mkPyDateTime year month day hour minute 0

/-! ## Symlink target resolution (scan.py lines 130–140)

`target` is the capture of `UnixDirRegex_SymLink`.  The Python code is:
```
target = PurePosixPath(target_str)
if not target.is_absolute():
    target = working_path / target
    try:
        target = target.relative_to('/', walk_up=True)
    except:
        target = target.relative_to('/')
    target = PurePosixPath('/') / target
```
`relative_to('/')` on an *absolute* path strips the leading `/` and keeps
the segments verbatim (pathlib performs a purely lexical prefix removal and
never collapses `..`); re-prefixing `/` is then the identity on the joined
path.  On a *relative* path both `relative_to` calls raise `ValueError`
(anchors differ), so the second call re-raises out of the bare `except`. -/
def resolve_symlink_target (working_path : PPath) (target_str : String) :
    Except PyExc PPath :=
  let target := posixPath target_str
  if target.absolute then .ok target
  else
    let t := working_path.join target
    if t.absolute then .ok { absolute := true, parts := t.parts }
    else .error (.valueError "relative path cannot be expressed relative to /")

/-! ## The `FileNode` dataclasses (scan.py lines 59–247) -/

/-- `RegularFile` dataclass (fields of `FileNode` plus `mime`, `size`). -/
structure RegularFile where
  path : PPath
  modification_date : Option PyDateTime := none
  error_msg : Option String := none
  extra : Option String := none
  mime : Option String := none
  size : Option Int := none
deriving DecidableEq, Repr

/-- `SymbolicLink` dataclass. -/
structure SymbolicLink where
  path : PPath
  modification_date : Option PyDateTime := none
  error_msg : Option String := none
  extra : Option String := none
  target : Option PPath := none
deriving DecidableEq, Repr

/-- `Directory` dataclass. -/
structure Directory where
  path : PPath
  modification_date : Option PyDateTime := none
  error_msg : Option String := none
  extra : Option String := none
  num_children : Option Nat := none
deriving DecidableEq, Repr

/-- A parsed node is one of the three dataclasses. -/
inductive FileNode where
  | file (f : RegularFile)
  | link (l : SymbolicLink)
  | dir (d : Directory)
deriving DecidableEq, Repr

/-- `mimetypes.guess_type(path)[0]`: the mime table is an external
collaborator (spec §1 out of scope); only a minimal extension table is
modelled, and no claim depends on its contents. -/
def guessMime (p : PPath) : Option String :=
  match p.parts.getLast? with
  | none => none
  | some name =>
    if strEnds ".txt" name then some "text/plain"
    else if strEnds ".html" name then some "text/html"
    else none

/-- `json.dumps(entry)` for the fact map: an opaque-to-the-claims verbatim
serialization; only its presence in `extra` matters. -/
def jsonDumpFacts (facts : List (String × String)) : String :=
  "\x7b" ++ String.intercalate ", "
    (facts.map (fun kv => "\x22" ++ kv.1 ++ "\x22: \x22" ++ kv.2 ++ "\x22"))
    ++ "\x7d"

/-- `dict.get(k)` / `dict[k]` lookup on the fact map (MLSD fact maps have
unique keys, so first-match lookup is the dict lookup). -/
def lookupFact (facts : List (String × String)) (k : String) : Option String :=
  (facts.find? (fun kv => kv.1 == k)).map (·.2)

/-! ## `FileNode.new_from_mlsd_line` (scan.py lines 78–94) -/

/-- One MLSD entry: `(filename, fact map)` as produced by `ftplib.mlsd`. -/
abbrev MlsdItem : Type := String × List (String × String)

/-- `new_from_mlsd_line` (the `flavour` parameter is unused by the Python
body and omitted).  Returns
* `.error e` when the body raises (`int(size)` failing → `ValueError`,
  missing `type` fact → `KeyError`) — callers catch this per entry;
* `.ok none` for an unsupported `type` fact (logged, `None` returned);
* `.ok (some node)` otherwise. -/
def new_from_mlsd_line (working_path : PPath) (entry : MlsdItem) :
    Except PyExc (Option FileNode) :=
  let filename := entry.1
  let facts := entry.2
  let mod_date := parse_ftp_date (lookupFact facts "modify")
  let entry_as_json := jsonDumpFacts facts
  let filesize : Except PyExc (Option Int) :=
    match lookupFact facts "size" with
    | none => .ok none
    | some s => (pyInt s).map some
  match filesize with
  | .error e => .error e
  | .ok filesize =>
    match lookupFact facts "type" with
    | none => .error (.keyError "type")
    | some t =>
      if t = "file" then
        let p := working_path.join (posixPath filename)
        .ok (some (.file
          { path := p
            modification_date := mod_date
            extra := some entry_as_json
            size := filesize
            mime := guessMime p }))
      else if t = "cdir" ∨ t = "pdir" ∨ t = "dir" then
        .ok (some (.dir
          { path := working_path.join (posixPath filename)
            modification_date := mod_date
            extra := some entry_as_json }))
      else .ok none

/-! ## Persistence model (scan.py lines 194–247)

Each `save` executes `REPLACE INTO <table> ... VALUES (...)` on a table whose
`path` column is the PRIMARY KEY: any existing row with the same key is
deleted and the new row inserted.  Tables are association lists keyed by
`str(path)`; rows are kept as the dataclasses themselves (they are in
bijection with the stored tuples given the key). -/

/-- SQLite `REPLACE INTO` on a table keyed by `key`. -/
def replaceInto {α : Type} (tbl : List (String × α)) (key : String) (v : α) :
    List (String × α) :=
  (tbl.filter (fun r => r.1 != key)) ++ [(key, v)]

/-- First row with the given key (`SELECT ... WHERE path = ?` + `fetchone`). -/
def tableLookup {α : Type} (tbl : List (String × α)) (key : String) : Option α :=
  (tbl.find? (fun r => r.1 == key)).map (·.2)

/-- The SQLite database: the three path-keyed tables (the `general`
key/value table is audit-only and not modelled). -/
structure Catalog where
  files : List (String × RegularFile) := []
  links : List (String × SymbolicLink) := []
  directories : List (String × Directory) := []
deriving DecidableEq, Repr

/-- `RegularFile.save` (line 197–198). -/
def RegularFile.save (f : RegularFile) (cat : Catalog) : Catalog :=
  { cat with files := replaceInto cat.files (pathStr f.path) f }

/-- `SymbolicLink.save` (line 215–216). -/
def SymbolicLink.save (l : SymbolicLink) (cat : Catalog) : Catalog :=
  { cat with links := replaceInto cat.links (pathStr l.path) l }

/-- `Directory.save` (line 233–234). -/
def Directory.save (d : Directory) (cat : Catalog) : Catalog :=
  { cat with directories := replaceInto cat.directories (pathStr d.path) d }

/-- `node.save(cur)` dispatched on the dataclass. -/
def FileNode.saveNode (n : FileNode) (cat : Catalog) : Catalog :=
  match n with
  | .file f => f.save cat
  | .link l => l.save cat
  | .dir d => d.save cat

/-- `Directory.load` (lines 236–243): the stored row for the path, if any. -/
def Directory.load (cat : Catalog) (directory : PPath) : Option Directory :=
  tableLookup cat.directories (pathStr directory)

/-! ## The scanner (`FTPScanner.scan_dir`, lines 363–410)

`scan_dir` consumes a listing iterator: either `ftp.mlsd()` (MLSD flavour)
or the generator `_read_lines('LIST')` (text flavours), whose consumer side
is `q.get(timeout=30)`.  The iterator's observable behaviour for one
directory is:
* `cwd` — the outcome of `ftp.cwd(str(directory))` (`.error` = raised);
* `listing` — either the complete item sequence, or the items produced
  before the iteration raised an exception `e` when the next item was
  requested (for the bounded line stream, a 30-second wait that elapses
  raises `queue.Empty`, i.e. `e = .queueEmpty`).

`scan_dir` is generic in the item type `ι` and in `newNode`, mirroring the
Python, which selects `new_node_func` as a function value. -/

/-- Producing the listing items: complete, or interrupted by exception `e`
after yielding a prefix. -/
inductive ListOutcome (ι : Type) where
  | complete (items : List ι)
  | interruptedBy (items : List ι) (e : PyExc)

/-- What the remote side does for one directory. -/
structure DirBehavior (ι : Type) where
  cwd : Except PyExc Unit
  listing : ListOutcome ι

/-- Which exceptions the two `except` clauses of `scan_dir`
(lines 401 and 406: `ftplib.error_perm`, `TimeoutError`) catch.
`queue.Empty` subclasses `Exception` directly, so it is not caught. -/
def caughtByScanDir : PyExc → Bool
  | .error_perm _ => true
  | .timeoutError _ => true
  | _ => false

/-- The `for line in dir_listing:` loop body (lines 383–393): count the raw
item, then parse; a raised exception is caught and logged per entry, a
`None` node is skipped, otherwise the node is saved immediately and appended
to `output`.  The accumulator is (catalog, output, n_entries). -/
def scanLoopStep {ι : Type} (newNode : PPath → ι → Except PyExc (Option FileNode))
    (directory : PPath) (acc : Catalog × List FileNode × Nat) (item : ι) :
    Catalog × List FileNode × Nat :=
  let n := acc.2.2 + 1
  match newNode directory item with
  | .error _ => (acc.1, acc.2.1, n)
  | .ok none => (acc.1, acc.2.1, n)
  | .ok (some node) => (node.saveNode acc.1, acc.2.1 ++ [node], n)

/-- The whole loop over a list of raw items. -/
def scanLoop {ι : Type} (newNode : PPath → ι → Except PyExc (Option FileNode))
    (directory : PPath) (cat : Catalog) (items : List ι) :
    Catalog × List FileNode × Nat :=
  items.foldl (scanLoopStep newNode directory) (cat, [], 0)

/-- `FTPScanner.scan_dir`.  Result: the catalog after all executed `save`
calls, and either the returned node list (`.ok`) or the escaping exception
(`.error`).  Structure, following the source:
1. load any prior `directories` row for the path, else a fresh `Directory`;
2. `try`: `cwd`, then consume the listing (each yielded item goes through
   the loop; an interrupting exception escapes the loop), then set
   `num_children` to the raw count and save the directory row;
3. `except error_perm / TimeoutError`: set `error_msg = str(e)` on the
   loaded row and save it, returning `[]`; any other exception propagates. -/
def scan_dir {ι : Type} (newNode : PPath → ι → Except PyExc (Option FileNode))
    (beh : DirBehavior ι) (cat : Catalog) (directory : PPath) :
    Catalog × Except PyExc (List FileNode) :=
  let this_dir := (Directory.load cat directory).getD { path := directory }
  let body : Catalog × Except PyExc (List FileNode) :=
    match beh.cwd with
    | .error e => (cat, .error e)
    | .ok _ =>
      match beh.listing with
      | .complete items =>
        let r := scanLoop newNode directory cat items
        (Directory.save { this_dir with num_children := some r.2.2 } r.1, .ok r.2.1)
      | .interruptedBy items e =>
        let r := scanLoop newNode directory cat items
        (r.1, .error e)
  match body.2 with
  | .ok out => (body.1, .ok out)
  | .error e =>
    if caughtByScanDir e then
      (Directory.save { this_dir with error_msg := some e.msg } body.1, .ok [])
    else (body.1, .error e)

/-- The directory children that `recursive_scan_dir` recurses into:
`isinstance(node, Directory)` nodes, in listing order, by their `path`. -/
def dirChildPaths (nodes : List FileNode) : List PPath :=
  nodes.filterMap (fun n => match n with | .dir d => some d.path | _ => none)

/-! ## `FTPScanner.recursive_scan_dir` (lines 413–417)

The Python recursion is unbounded.  `recScan fuel` runs it with call-depth
budget `fuel`: `none` means the recursion nests deeper than `fuel`, so
`(∀ fuel, recScan … fuel … = none)` states that the recursion never
completes.  An exception escaping `scan_dir` propagates out of
`recursive_scan_dir` (aborting the remaining siblings). -/

mutual

def recScan {ι : Type} (newNode : PPath → ι → Except PyExc (Option FileNode))
    (server : PPath → DirBehavior ι) :
    Nat → Catalog → PPath → Option (Catalog × Except PyExc Unit)
  | 0, _, _ => none
  | fuel + 1, cat, d =>
    let r := scan_dir newNode (server d) cat d
    match r.2 with
    | .error e => some (r.1, .error e)
    | .ok nodes => recScanList newNode server fuel r.1 (dirChildPaths nodes)
termination_by fuel _ _ => (fuel, 0)

def recScanList {ι : Type} (newNode : PPath → ι → Except PyExc (Option FileNode))
    (server : PPath → DirBehavior ι) :
    Nat → Catalog → List PPath → Option (Catalog × Except PyExc Unit)
  | _, cat, [] => some (cat, .ok ())
  | fuel, cat, d :: ds =>
    match recScan newNode server fuel cat d with
    | none => none
    | some (cat', .error e) => some (cat', .error e)
    | some (cat', .ok _) => recScanList newNode server fuel cat' ds
termination_by fuel _ ds => (fuel, ds.length + 1)

end

/-! ## Flavour selection (`FTPScanner.get_basics`, lines 309–335,
and `__init__` line 255) -/

/-- `FTPFlavour` (scan.py lines 30–33). -/
inductive FTPFlavour where
  | unix
  | msdos
  | mlsd
deriving DecidableEq, Repr

/-- Inputs to flavour selection: the flavour forced by the caller
(`self.flavour` set in `__init__`), the HELP output (`none` when the HELP
command raised — caught with a warning, lines 316–317), and the SYST output
(not wrapped in `try`; selection only runs when it succeeded). -/
structure BasicsInput where
  forced : Option FTPFlavour
  helpMsg : Option String
  systMsg : String

/-- The flavour-selection logic of `get_basics`: with no forced flavour,
`re.findall(r"\bMLSD\b", help)` nonempty selects MLSD (lines 313–315);
otherwise the SYST string selects MS-DOS on `"Windows_NT"`/`"Win32NT"`,
Unix on `"UNIX"`, and anything else raises
`ValueError(f"Unknown flavour {msg}")` (lines 329–335). -/
def selectFlavour (inp : BasicsInput) : Except String FTPFlavour :=
  let fl : Option FTPFlavour :=
    match inp.forced, inp.helpMsg with
    | none, some msg => if hasWord "MLSD" msg then some .mlsd else none
    | f, _ => f
  match fl with
  | some f => .ok f
  | none =>
    if strContains inp.systMsg "Windows_NT" || strContains inp.systMsg "Win32NT" then
      .ok .msdos
    else if strContains inp.systMsg "UNIX" then .ok .unix
    else .error ("Unknown flavour " ++ inp.systMsg)

/-- `cli.basic_scan` after connecting: `get_basics()` then
`recursive_scan_dir(root)`.  A `ValueError` raised by flavour selection
propagates before any directory is visited, so no scan output exists. -/
def runScan {ι : Type} (inp : BasicsInput)
    (newNode : FTPFlavour → PPath → ι → Except PyExc (Option FileNode))
    (server : PPath → DirBehavior ι) (fuel : Nat) (cat : Catalog)
    (root : PPath) : Except String (Option (Catalog × Except PyExc Unit)) :=
  match selectFlavour inp with
  | .error e => .error e
  | .ok fl => .ok (recScan (newNode fl) server fuel cat root)

/-! ## Spec-side symlink resolution (for claim C3 only)

The following definition follows the *spec's words* (§4.3), not the code:
"if relative, join to the link's containing directory and collapse `..`
segments; if collapsing would ascend above the scan root, clamp to the root
rather than erroring".  It exists to be compared with
`resolve_symlink_target`, the definition translated from the code. -/

/-- Collapse `..` segments left to right, clamping at the root (popping an
empty accumulator leaves it empty). -/
def collapseClampAux (acc : List String) : List String → List String
  | [] => acc
  | p :: ps =>
    if p = ".." then collapseClampAux acc.dropLast ps
    else collapseClampAux (acc ++ [p]) ps

/-- The resolution described by the spec: absolute targets as-is; relative
targets joined to the containing directory with `..` collapsed and clamped
at the root. -/
def specResolveTarget (working_path : PPath) (target_str : String) : PPath :=
  let target := posixPath target_str
  if target.absolute then target
  else { absolute := working_path.absolute
         parts := collapseClampAux [] (working_path.parts ++ target.parts) }

/-! ## Concrete server behaviours used by the claims -/

/-- A server whose every directory listing is the single MLSD self-reference
item `("." , type=cdir)` — the standard `cdir` line an MLSD server emits. -/
def cdirServer : PPath → DirBehavior MlsdItem :=
  fun _ => ⟨.ok (), .complete [(".", [("type", "cdir")])]⟩

/-! ## Helper lemmas -/

theorem PPath.join_empty (d : PPath) : d.join ⟨false, []⟩ = d := by
  simp [PPath.join]

theorem filter_ne_then_eq {α : Type} (t : List (String × α)) (k : String) :
    (t.filter (fun r => r.1 != k)).filter (fun r => r.1 == k) = [] := by
  induction t with
  | nil => rfl
  | cons a t ih =>
    by_cases h : a.1 = k
    · simp [List.filter, h, bne, ih]
    · simp only [List.filter, bne]
      rw [beq_false_of_ne h]
      simp [beq_false_of_ne h, ih]

theorem replaceInto_rows_self {α : Type} (t : List (String × α)) (k : String) (v : α) :
    ((replaceInto t k v).filter (fun r => r.1 == k)).length = 1 := by
  simp [replaceInto, List.filter_append, filter_ne_then_eq]

theorem filter_ne_other {α : Type} (t : List (String × α)) (k q : String)
    (h : q ≠ k) :
    (t.filter (fun r => r.1 != k)).filter (fun r => r.1 == q)
      = t.filter (fun r => r.1 == q) := by
  rw [List.filter_filter]
  apply List.filter_congr
  intro x _
  by_cases hxq : x.1 = q
  · have hxk : x.1 ≠ k := fun e => h (hxq ▸ e)
    simp [bne, hxq, hxk]
    exact h
  · simp [bne, hxq]

theorem replaceInto_rows_other {α : Type} (t : List (String × α)) (k q : String)
    (v : α) (h : q ≠ k) :
    (replaceInto t k v).filter (fun r => r.1 == q)
      = t.filter (fun r => r.1 == q) := by
  have hk : (k == q) = false := beq_false_of_ne (fun hkq => h hkq.symm)
  have h2 : List.filter (fun r => r.1 == q) [(k, v)] = [] := by simp [hk]
  simp only [replaceInto, List.filter_append, h2, List.append_nil]
  exact filter_ne_other t k q h

theorem tableLookup_replaceInto {α : Type} (t : List (String × α)) (k : String) (v : α) :
    tableLookup (replaceInto t k v) k = some v := by
  simp only [tableLookup, replaceInto]
  rw [List.find?_append]
  have h1 : (t.filter (fun r => r.1 != k)).find? (fun r => r.1 == k) = none := by
    rw [List.find?_filter]
    induction t with
    | nil => rfl
    | cons a t ih =>
      simp only [List.find?]
      by_cases ha : a.1 = k <;> simp [ha, bne, ih]
  simp [h1]

theorem scanLoop_go_count {ι : Type}
    (newNode : PPath → ι → Except PyExc (Option FileNode)) (d : PPath)
    (items : List ι) (c : Catalog) (o : List FileNode) (n : Nat) :
    (items.foldl (scanLoopStep newNode d) (c, o, n)).2.2 = n + items.length := by
  induction items generalizing c o n with
  | nil => simp
  | cons it items ih =>
    simp only [List.foldl]
    have step : (scanLoopStep newNode d (c, o, n) it).2.2 = n + 1 := by
      simp only [scanLoopStep]
      cases newNode d it with
      | error e => rfl
      | ok node => cases node <;> rfl
    rcases hstep : scanLoopStep newNode d (c, o, n) it with ⟨c', o', n'⟩
    have hn' : n' = n + 1 := by rw [← step, hstep]
    subst hn'
    rw [ih]
    simp only [List.length_cons]
    omega

theorem scanLoop_go_cat_out {ι : Type}
    (newNode : PPath → ι → Except PyExc (Option FileNode)) (d : PPath)
    (items : List ι) (c : Catalog) (o : List FileNode) (n m : Nat) :
    (items.foldl (scanLoopStep newNode d) (c, o, n)).1
        = (items.foldl (scanLoopStep newNode d) (c, o, m)).1
    ∧ (items.foldl (scanLoopStep newNode d) (c, o, n)).2.1
        = (items.foldl (scanLoopStep newNode d) (c, o, m)).2.1 := by
  induction items generalizing c o n m with
  | nil => exact ⟨rfl, rfl⟩
  | cons it items ih =>
    simp only [List.foldl, scanLoopStep]
    cases newNode d it with
    | error e => exact ih c o (n + 1) (m + 1)
    | ok node =>
      cases node with
      | none => exact ih c o (n + 1) (m + 1)
      | some nd => exact ih _ _ (n + 1) (m + 1)

theorem PPath.eta_abs (p : PPath) (h : p.absolute = true) :
    ({ absolute := true, parts := p.parts } : PPath) = p := by
  cases p
  subst h
  rfl

theorem recScan_zero {ι : Type} (newNode : PPath → ι → Except PyExc (Option FileNode))
    (server : PPath → DirBehavior ι) (cat : Catalog) (d : PPath) :
    recScan newNode server 0 cat d = none := by
  simp [recScan]

theorem recScan_succ_error {ι : Type}
    (newNode : PPath → ι → Except PyExc (Option FileNode))
    (server : PPath → DirBehavior ι) (fuel : Nat) (cat : Catalog) (d : PPath)
    (e : PyExc) (he : (scan_dir newNode (server d) cat d).2 = .error e) :
    recScan newNode server (fuel + 1) cat d
      = some ((scan_dir newNode (server d) cat d).1, .error e) := by
  simp [recScan, he]

theorem recScan_succ_ok {ι : Type}
    (newNode : PPath → ι → Except PyExc (Option FileNode))
    (server : PPath → DirBehavior ι) (fuel : Nat) (cat : Catalog) (d : PPath)
    (nodes : List FileNode)
    (hok : (scan_dir newNode (server d) cat d).2 = .ok nodes) :
    recScan newNode server (fuel + 1) cat d
      = recScanList newNode server fuel (scan_dir newNode (server d) cat d).1
          (dirChildPaths nodes) := by
  simp [recScan, hok]

theorem recScanList_nil {ι : Type}
    (newNode : PPath → ι → Except PyExc (Option FileNode))
    (server : PPath → DirBehavior ι) (fuel : Nat) (cat : Catalog) :
    recScanList newNode server fuel cat [] = some (cat, .ok ()) := by
  simp [recScanList]

theorem recScanList_cons_none {ι : Type}
    (newNode : PPath → ι → Except PyExc (Option FileNode))
    (server : PPath → DirBehavior ι) (fuel : Nat) (cat : Catalog) (d : PPath)
    (ds : List PPath) (h : recScan newNode server fuel cat d = none) :
    recScanList newNode server fuel cat (d :: ds) = none := by
  simp [recScanList, h]

theorem recScanList_cons_error {ι : Type}
    (newNode : PPath → ι → Except PyExc (Option FileNode))
    (server : PPath → DirBehavior ι) (fuel : Nat) (cat cat' : Catalog)
    (d : PPath) (ds : List PPath) (e : PyExc)
    (h : recScan newNode server fuel cat d = some (cat', .error e)) :
    recScanList newNode server fuel cat (d :: ds) = some (cat', .error e) := by
  simp [recScanList, h]

theorem recScanList_cons_ok {ι : Type}
    (newNode : PPath → ι → Except PyExc (Option FileNode))
    (server : PPath → DirBehavior ι) (fuel : Nat) (cat cat' : Catalog)
    (d : PPath) (ds : List PPath)
    (h : recScan newNode server fuel cat d = some (cat', .ok ())) :
    recScanList newNode server fuel cat (d :: ds)
      = recScanList newNode server fuel cat' ds := by
  simp [recScanList, h]

/-! ## Claim theorems -/

/-- C1 (the code, evaluated at the failing input): for an MS-DOS listing
time field `12:38`, the published conversion produces hour 0 when the
meridiem is `PM` and hour 12 when it is `AM` — the reverse of the claimed
(and conventionally correct) hour 12 for `12:xx PM` and hour 0 for
`12:xx AM`.  `hour += 12` runs on the PM branch even at `hour = 12`
(giving 24, wrapped to 0) and the AM branch leaves `hour = 12` untouched. -/
theorem c1_msdos_noon_and_midnight_swapped :
    msDosModDate 3 1 2 12 38 "PM" = some ⟨2003, 1, 2, 0, 38, 0⟩
    ∧ msDosModDate 3 1 2 12 38 "AM" = some ⟨2003, 1, 2, 12, 38, 0⟩ := by
  exact ⟨by decide, by decide⟩

/-- C8: the MS-DOS date reconstruction maps a two-digit year field `y` in
70–99 to the year 1900+y and `y` in 00–69 to the year 2000+y. -/
theorem c8_msdos_two_digit_year (y mo dd hh mi : Nat) (ampm : String)
    (dt : PyDateTime) (hy : y ≤ 99)
    (hparse : msDosModDate y mo dd hh mi ampm = some dt) :
    dt.year = if 70 ≤ y then 1900 + y else 2000 + y := by
  simp only [msDosModDate, mkPyDateTime] at hparse
  by_cases h70 : 70 ≤ y ∧ y ≤ 99
  · rw [if_pos h70, Option.ite_none_right_eq_some] at hparse
    obtain ⟨-, hdt⟩ := hparse
    injection hdt with hdt
    subst hdt
    simp [h70.1, Nat.add_comm]
  · rw [if_neg h70, Option.ite_none_right_eq_some] at hparse
    obtain ⟨-, hdt⟩ := hparse
    injection hdt with hdt
    subst hdt
    have hn : ¬ 70 ≤ y := fun h' => h70 ⟨h', hy⟩
    simp [hn, Nat.add_comm]

/-- C8 witness: the theorem applied at the concrete field `y = 85`
(well-formed two-digit year), giving 1985. -/
theorem c8_msdos_two_digit_year_witness :
    msDosModDate 85 1 2 10 30 "AM" = some ⟨1985, 1, 2, 10, 30, 0⟩
    ∧ (⟨1985, 1, 2, 10, 30, 0⟩ : PyDateTime).year
        = if 70 ≤ 85 then 1900 + 85 else 2000 + 85 := by
  refine ⟨by decide, ?_⟩
  exact c8_msdos_two_digit_year 85 1 2 10 30 "AM" ⟨1985, 1, 2, 10, 30, 0⟩
    (by decide) (by decide)

/-- C3 counterexample: for the spec's own example — a symlink with raw
target `../../../../x` in directory `/a/b`, two levels below the root —
the code stores `/a/b/../../../../x` verbatim: the `..` segments are *not*
collapsed and nothing is clamped at the scan root, unlike the
collapse-and-clamp resolution the claim describes (`specResolveTarget`,
which yields `/x`). -/
theorem c3_symlink_target_not_collapsed_cex :
    resolve_symlink_target (posixPath "/a/b") "../../../../x"
      = .ok { absolute := true, parts := ["a", "b", "..", "..", "..", "..", "x"] }
    ∧ specResolveTarget (posixPath "/a/b") "../../../../x"
      = { absolute := true, parts := ["x"] }
    ∧ ({ absolute := true, parts := ["a", "b", "..", "..", "..", "..", "x"] } : PPath)
      ≠ { absolute := true, parts := ["x"] }
    ∧ ".." ∈ (["a", "b", "..", "..", "..", "..", "x"] : List String) :=
  ⟨rfl, by decide, by decide, by decide⟩

/-- C3 (amended): the stored symlink target of a parsed entry is an
absolute path whenever the link's containing directory is absolute: an
absolute raw target is used as-is, and a relative raw target is the plain
join of the containing directory and the target with `..` segments
preserved verbatim — no collapsing and no clamping at the scan root
occurs. -/
theorem c3_symlink_target_amended (wd : PPath) (tgt : String)
    (hwd : wd.absolute = true) :
    resolve_symlink_target wd tgt
      = .ok (if (posixPath tgt).absolute then posixPath tgt
             else wd.join (posixPath tgt))
    ∧ ∀ p, resolve_symlink_target wd tgt = .ok p → p.absolute = true := by
  have hres : resolve_symlink_target wd tgt
      = .ok (if (posixPath tgt).absolute then posixPath tgt
             else wd.join (posixPath tgt)) := by
    by_cases ht : (posixPath tgt).absolute = true
    · simp [resolve_symlink_target, ht]
    · have ht' : (posixPath tgt).absolute = false := by
        cases hb : (posixPath tgt).absolute
        · rfl
        · exact absurd hb ht
      have hj : (wd.join (posixPath tgt)).absolute = true := by
        simp [PPath.join, ht', hwd]
      simp [resolve_symlink_target, ht', hj, PPath.eta_abs _ hj]
  refine ⟨hres, ?_⟩
  intro p hp
  rw [hres] at hp
  injection hp with hp
  subst hp
  by_cases ht : (posixPath tgt).absolute = true
  · simp [ht]
  · have ht' : (posixPath tgt).absolute = false := by
      cases hb : (posixPath tgt).absolute
      · rfl
      · exact absurd hb ht
    simp [ht', PPath.join, hwd]

/-- C3 witness: the amended theorem applied at containing directory `/a/b`
and raw target `../../../../x`. -/
theorem c3_symlink_target_amended_witness :
    resolve_symlink_target (posixPath "/a/b") "../../../../x"
      = .ok (if (posixPath "../../../../x").absolute then posixPath "../../../../x"
             else (posixPath "/a/b").join (posixPath "../../../../x")) :=
  (c3_symlink_target_amended (posixPath "/a/b") "../../../../x" (by decide)).1

/-! ## C9 helper definitions -/

/-- `str(self.path)`: the table key every `save` uses. -/
def FileNode.key : FileNode → String
  | .file f => pathStr f.path
  | .link l => pathStr l.path
  | .dir d => pathStr d.path

/-- Rows of the `files` table with the given key. -/
def rowsFiles (cat : Catalog) (k : String) : List (String × RegularFile) :=
  cat.files.filter (fun r => r.1 == k)

/-- Rows of the `links` table with the given key. -/
def rowsLinks (cat : Catalog) (k : String) : List (String × SymbolicLink) :=
  cat.links.filter (fun r => r.1 == k)

/-- Rows of the `directories` table with the given key. -/
def rowsDirs (cat : Catalog) (k : String) : List (String × Directory) :=
  cat.directories.filter (fun r => r.1 == k)

/-- Number of rows for the node's own key in the table of the node's kind. -/
def FileNode.kindRowCount : FileNode → Catalog → Nat
  | .file f, cat => (rowsFiles cat (pathStr f.path)).length
  | .link l, cat => (rowsLinks cat (pathStr l.path)).length
  | .dir d, cat => (rowsDirs cat (pathStr d.path)).length

/-- C9: persisting an entry is an upsert keyed by the path string: after any
`save`, the saved path has exactly one row in its table (so re-saving the
same path overwrites rather than duplicates), and the rows of every other
path, in all three tables, are untouched (never deleted). -/
theorem c9_upsert_by_path (cat : Catalog) (n : FileNode) (q : String)
    (hq : q ≠ n.key) :
    n.kindRowCount (n.saveNode cat) = 1
    ∧ rowsFiles (n.saveNode cat) q = rowsFiles cat q
    ∧ rowsLinks (n.saveNode cat) q = rowsLinks cat q
    ∧ rowsDirs (n.saveNode cat) q = rowsDirs cat q := by
  cases n with
  | file f =>
    exact ⟨replaceInto_rows_self cat.files (pathStr f.path) f,
      replaceInto_rows_other cat.files (pathStr f.path) q f hq, rfl, rfl⟩
  | link l =>
    exact ⟨replaceInto_rows_self cat.links (pathStr l.path) l, rfl,
      replaceInto_rows_other cat.links (pathStr l.path) q l hq, rfl⟩
  | dir d =>
    exact ⟨replaceInto_rows_self cat.directories (pathStr d.path) d, rfl, rfl,
      replaceInto_rows_other cat.directories (pathStr d.path) q d hq⟩

/-- C9 witness: saving a second `RegularFile` record for `/a.txt` into a
catalog that already holds a row for `/a.txt` leaves exactly one row for
that path. -/
theorem c9_upsert_by_path_witness :
    (FileNode.file { path := posixPath "/a.txt", size := some 5 }).kindRowCount
        ((FileNode.file { path := posixPath "/a.txt", size := some 5 }).saveNode
          { files := [("/a.txt", { path := posixPath "/a.txt" })]
            links := []
            directories := [] }) = 1 :=
  (c9_upsert_by_path
    { files := [("/a.txt", { path := posixPath "/a.txt" })]
      links := []
      directories := [] }
    (FileNode.file { path := posixPath "/a.txt", size := some 5 })
    "/b" (by decide)).1

/-- C5: when entering directory `d` raises `ftplib.error_perm`, `scan_dir`
persists exactly one directory record for `d`, carrying the error message
and the prior record's `num_children` (all fields of a fresh record default
to `none` when no prior record exists), adds nothing to the `files` and
`links` tables, returns `.ok []` (so the caller recurses into nothing), and
the recursive scan proceeds to the remaining sibling directories from the
updated catalog.  The `hload` hypothesis states that the prior row for `d`
is keyed by its own path — true of every catalog produced by `save`, whose
key is always `str(self.path)`. -/
theorem c5_permission_denied {ι : Type}
    (newNode : PPath → ι → Except PyExc (Option FileNode))
    (listing : ListOutcome ι) (cat : Catalog) (d : PPath) (msg : String)
    (server : PPath → DirBehavior ι) (rest : List PPath) (fuel : Nat)
    (hs : server d = ⟨.error (.error_perm msg), listing⟩)
    (hload : pathStr ((Directory.load cat d).getD { path := d }).path
      = pathStr d) :
    scan_dir newNode ⟨.error (.error_perm msg), listing⟩ cat d
      = (Directory.save
          { (Directory.load cat d).getD { path := d } with error_msg := some msg }
          cat, .ok [])
    ∧ (rowsDirs (scan_dir newNode ⟨.error (.error_perm msg), listing⟩ cat d).1
        (pathStr d)).length = 1
    ∧ (scan_dir newNode ⟨.error (.error_perm msg), listing⟩ cat d).1.files
        = cat.files
    ∧ (scan_dir newNode ⟨.error (.error_perm msg), listing⟩ cat d).1.links
        = cat.links
    ∧ recScanList newNode server (fuel + 1) cat (d :: rest)
        = recScanList newNode server (fuel + 1)
            (Directory.save
              { (Directory.load cat d).getD { path := d } with
                error_msg := some msg } cat)
            rest := by
  refine ⟨rfl, ?_, rfl, rfl, ?_⟩
  · show (List.filter (fun r => r.1 == pathStr d)
        (replaceInto cat.directories
          (pathStr ((Directory.load cat d).getD { path := d }).path)
          { (Directory.load cat d).getD { path := d } with
            error_msg := some msg })).length = 1
    rw [hload]
    exact replaceInto_rows_self _ _ _
  · have hsd : (scan_dir newNode (server d) cat d).2 = .ok [] := by
      rw [hs]
      rfl
    have hrec : recScan newNode server (fuel + 1) cat d
        = some ((scan_dir newNode (server d) cat d).1, .ok ()) := by
      rw [recScan_succ_ok newNode server fuel cat d [] hsd]
      exact recScanList_nil _ _ _ _
    rw [recScanList_cons_ok newNode server (fuel + 1) cat _ d rest hrec, hs]
    rfl

/-- C5 witness: the theorem at a concrete denied directory `/a` with no
prior record, a sibling `/b`, and message `550 denied`. -/
theorem c5_permission_denied_witness :
    scan_dir new_from_mlsd_line
        ⟨.error (.error_perm "550 denied"), .complete ([] : List MlsdItem)⟩
        { files := [], links := [], directories := [] } (posixPath "/a")
      = ({ files := [], links := []
           directories :=
             [("/a", { path := posixPath "/a", error_msg := some "550 denied" })] },
         .ok []) :=
  (c5_permission_denied new_from_mlsd_line (.complete [])
    { files := [], links := [], directories := [] } (posixPath "/a") "550 denied"
    (fun _ => ⟨.error (.error_perm "550 denied"), .complete []⟩)
    [posixPath "/b"] 0 rfl rfl).1

/-- C6: after a completed listing, the persisted directory record's
`num_children` equals the number of raw listing items — whatever `newNode`
does on each item (parse failures and unsupported types included), since
`n_entries` is incremented before the parse is attempted. -/
theorem c6_child_count {ι : Type}
    (newNode : PPath → ι → Except PyExc (Option FileNode))
    (items : List ι) (cat : Catalog) (d : PPath)
    (hload : pathStr ((Directory.load cat d).getD { path := d }).path
      = pathStr d) :
    tableLookup (scan_dir newNode ⟨.ok (), .complete items⟩ cat d).1.directories
        (pathStr d)
      = some { (Directory.load cat d).getD { path := d } with
               num_children := some items.length } := by
  have hcount : (scanLoop newNode d cat items).2.2 = items.length := by
    have h := scanLoop_go_count newNode d items cat [] 0
    simpa [scanLoop] using h
  show tableLookup
      (replaceInto (scanLoop newNode d cat items).1.directories
        (pathStr ((Directory.load cat d).getD { path := d }).path)
        { (Directory.load cat d).getD { path := d } with
          num_children := some (scanLoop newNode d cat items).2.2 })
      (pathStr d)
    = some { (Directory.load cat d).getD { path := d } with
             num_children := some items.length }
  rw [hload, hcount]
  exact tableLookup_replaceInto _ _ _

/-- C6 witness: three raw MLSD items — a well-formed file, an item with no
`type` fact (a per-entry parse failure), and an unsupported type — give the
directory record `num_children = 3` while only one child parses. -/
theorem c6_child_count_witness :
    tableLookup (scan_dir new_from_mlsd_line
        ⟨.ok (), .complete
          [(("a.txt", [("type", "file"), ("size", "120")]) : MlsdItem),
           ("bad", [("size", "3")]),
           ("dev", [("type", "special")])]⟩
        { files := [], links := [], directories := [] }
        (posixPath "/")).1.directories (pathStr (posixPath "/"))
      = some { path := posixPath "/", num_children := some 3 }
    ∧ Except.map List.length
        (scan_dir new_from_mlsd_line
          ⟨.ok (), .complete
            [(("a.txt", [("type", "file"), ("size", "120")]) : MlsdItem),
             ("bad", [("size", "3")]),
             ("dev", [("type", "special")])]⟩
          { files := [], links := [], directories := [] }
          (posixPath "/")).2
      = .ok 1 :=
  ⟨c6_child_count new_from_mlsd_line
     [("a.txt", [("type", "file"), ("size", "120")]),
      ("bad", [("size", "3")]),
      ("dev", [("type", "special")])]
     { files := [], links := [], directories := [] } (posixPath "/") rfl,
   rfl⟩

/-- C10: an MLSD item whose fact map has no `type` fact makes
`new_from_mlsd_line` raise (`entry['type']` is a `KeyError`; if a `size`
fact fails `int()` first, a `ValueError`), which the scan loop catches per
entry: the item saves nothing, contributes no child to the output, still
increments the raw item counter (hence `childCount`), and the remaining
items of the directory are processed exactly as without it. -/
theorem c10_missing_type_fact (cat : Catalog) (d : PPath) (nm : String)
    (facts : List (String × String)) (pre post : List MlsdItem)
    (hty : lookupFact facts "type" = none)
    (hload : pathStr ((Directory.load cat d).getD { path := d }).path
      = pathStr d) :
    (∃ e, new_from_mlsd_line d (nm, facts) = .error e)
    ∧ scanLoop new_from_mlsd_line d cat (pre ++ (nm, facts) :: post)
        = ((scanLoop new_from_mlsd_line d cat (pre ++ post)).1,
           (scanLoop new_from_mlsd_line d cat (pre ++ post)).2.1,
           (scanLoop new_from_mlsd_line d cat (pre ++ post)).2.2 + 1)
    ∧ (scan_dir new_from_mlsd_line ⟨.ok (), .complete (pre ++ (nm, facts) :: post)⟩
        cat d).2
        = .ok (scanLoop new_from_mlsd_line d cat (pre ++ post)).2.1
    ∧ tableLookup (scan_dir new_from_mlsd_line
          ⟨.ok (), .complete (pre ++ (nm, facts) :: post)⟩ cat d).1.directories
        (pathStr d)
        = some { (Directory.load cat d).getD { path := d } with
                 num_children := some ((pre ++ post).length + 1) } := by
  have herr : ∃ e, new_from_mlsd_line d (nm, facts) = .error e := by
    cases hsz : lookupFact facts "size" with
    | none => exact ⟨.keyError "type", by simp [new_from_mlsd_line, hty, hsz]⟩
    | some s =>
      cases hpi : pyInt s with
      | error e => exact ⟨e, by simp [new_from_mlsd_line, hty, hsz, hpi, Except.map]⟩
      | ok v =>
        exact ⟨.keyError "type", by simp [new_from_mlsd_line, hty, hsz, hpi, Except.map]⟩
  obtain ⟨e, he⟩ := herr
  have hloop : scanLoop new_from_mlsd_line d cat (pre ++ (nm, facts) :: post)
      = ((scanLoop new_from_mlsd_line d cat (pre ++ post)).1,
         (scanLoop new_from_mlsd_line d cat (pre ++ post)).2.1,
         (scanLoop new_from_mlsd_line d cat (pre ++ post)).2.2 + 1) := by
    rcases hpre : List.foldl (scanLoopStep new_from_mlsd_line d) (cat, [], 0) pre
      with ⟨c, o, n⟩
    have hstep : scanLoopStep new_from_mlsd_line d (c, o, n) (nm, facts)
        = (c, o, n + 1) := by
      simp [scanLoopStep, he]
    have h1 : scanLoop new_from_mlsd_line d cat (pre ++ (nm, facts) :: post)
        = List.foldl (scanLoopStep new_from_mlsd_line d) (c, o, n + 1) post := by
      simp [scanLoop, List.foldl_append, hpre, hstep]
    have h2 : scanLoop new_from_mlsd_line d cat (pre ++ post)
        = List.foldl (scanLoopStep new_from_mlsd_line d) (c, o, n) post := by
      simp [scanLoop, List.foldl_append, hpre]
    have hco := scanLoop_go_cat_out new_from_mlsd_line d post c o (n + 1) n
    have hc1 := scanLoop_go_count new_from_mlsd_line d post c o (n + 1)
    have hc2 := scanLoop_go_count new_from_mlsd_line d post c o n
    rw [h1, h2]
    rw [Prod.ext_iff]
    refine ⟨hco.1, ?_⟩
    rw [Prod.ext_iff]
    refine ⟨hco.2, ?_⟩
    show (List.foldl (scanLoopStep new_from_mlsd_line d) (c, o, n + 1) post).2.2
      = (List.foldl (scanLoopStep new_from_mlsd_line d) (c, o, n) post).2.2 + 1
    rw [hc1, hc2]
    omega
  have hcount : (scanLoop new_from_mlsd_line d cat (pre ++ (nm, facts) :: post)).2.2
      = (pre ++ post).length + 1 := by
    rw [hloop]
    have h := scanLoop_go_count new_from_mlsd_line d (pre ++ post) cat [] 0
    show (scanLoop new_from_mlsd_line d cat (pre ++ post)).2.2 + 1 = _
    simp only [scanLoop] at *
    omega
  refine ⟨⟨e, he⟩, hloop, ?_, ?_⟩
  · show Except.ok (scanLoop new_from_mlsd_line d cat (pre ++ (nm, facts) :: post)).2.1
      = Except.ok (scanLoop new_from_mlsd_line d cat (pre ++ post)).2.1
    rw [hloop]
  · show tableLookup
        (replaceInto
          (scanLoop new_from_mlsd_line d cat (pre ++ (nm, facts) :: post)).1.directories
          (pathStr ((Directory.load cat d).getD { path := d }).path)
          { (Directory.load cat d).getD { path := d } with
            num_children :=
              some (scanLoop new_from_mlsd_line d cat (pre ++ (nm, facts) :: post)).2.2 })
        (pathStr d)
      = some { (Directory.load cat d).getD { path := d } with
               num_children := some ((pre ++ post).length + 1) }
    rw [hload, hcount]
    exact tableLookup_replaceInto _ _ _

/-- C10 witness: the theorem at a concrete listing of `/` with a good file,
an item lacking a `type` fact, and a good subdirectory: the directory
record still counts three children. -/
theorem c10_missing_type_fact_witness :
    tableLookup (scan_dir new_from_mlsd_line
        ⟨.ok (), .complete
          [(("a.txt", [("type", "file")]) : MlsdItem),
           ("bad", [("size", "3")]),
           ("sub", [("type", "dir")])]⟩
        { files := [], links := [], directories := [] }
        (posixPath "/")).1.directories (pathStr (posixPath "/"))
      = some { path := posixPath "/", num_children := some 3 } :=
  (c10_missing_type_fact { files := [], links := [], directories := [] }
    (posixPath "/") "bad" [("size", "3")]
    [("a.txt", [("type", "file")])] [("sub", [("type", "dir")])]
    rfl rfl).2.2.2

/-- C2 (the code, evaluated at the failing behaviour): when waiting for the
next listing item exceeds the 30-second timeout, `q.get` raises
`queue.Empty`, which is caught by neither `except ftplib.error_perm` nor
`except TimeoutError` (it subclasses `Exception` directly).  `scan_dir`
therefore persists nothing for the directory — no error record at all —
re-raises, and the recursive scan aborts without visiting the remaining
siblings, contrary to the claimed directory-scoped handling. -/
theorem c2_queue_timeout_uncaught {ι : Type}
    (newNode : PPath → ι → Except PyExc (Option FileNode))
    (server : PPath → DirBehavior ι) (cat : Catalog) (dA : PPath)
    (rest : List PPath) (fuel : Nat)
    (hA : server dA = ⟨.ok (), .interruptedBy [] .queueEmpty⟩) :
    scan_dir newNode (server dA) cat dA = (cat, .error .queueEmpty)
    ∧ recScanList newNode server (fuel + 1) cat (dA :: rest)
        = some (cat, .error .queueEmpty) := by
  have h1 : scan_dir newNode ⟨.ok (), .interruptedBy ([] : List ι) .queueEmpty⟩ cat dA
      = (cat, .error .queueEmpty) := rfl
  have h2 : scan_dir newNode (server dA) cat dA = (cat, .error .queueEmpty) := by
    rw [hA]
    exact h1
  refine ⟨h2, ?_⟩
  have h3 : recScan newNode server (fuel + 1) cat dA = some (cat, .error .queueEmpty) := by
    have he : (scan_dir newNode (server dA) cat dA).2 = .error .queueEmpty := by
      rw [h2]
    rw [recScan_succ_error newNode server fuel cat dA .queueEmpty he, h2]
  exact recScanList_cons_error newNode server (fuel + 1) cat cat dA rest .queueEmpty h3

/-- C2 witness: the theorem at a concrete run — the first subdirectory's
listing stalls before producing any item; nothing is persisted and the
sibling is never reached. -/
theorem c2_queue_timeout_uncaught_witness :
    recScanList new_from_mlsd_line
        (fun _ => ⟨.ok (), .interruptedBy ([] : List MlsdItem) .queueEmpty⟩)
        1 { files := [], links := [], directories := [] }
        [posixPath "/a", posixPath "/b"]
      = some ({ files := [], links := [], directories := [] },
              .error .queueEmpty) :=
  (c2_queue_timeout_uncaught new_from_mlsd_line
    (fun _ => ⟨.ok (), .interruptedBy ([] : List MlsdItem) .queueEmpty⟩)
    { files := [], links := [], directories := [] } (posixPath "/a")
    [posixPath "/b"] 0 rfl).2

/-- C4 (the code, evaluated at the failing input): an MLSD listing that
contains the standard self-reference item `("." , type=cdir)` — accepted by
`new_from_mlsd_line` as a `Directory` — makes `recursive_scan_dir` recurse
into the very directory it is scanning (`working_path / "."` is
`working_path`), so on this finite one-directory tree the recursion
exhausts every call-depth budget: it never terminates, and its depth is not
the tree's depth. -/
theorem c4_cdir_recursion_never_terminates (fuel : Nat) (cat : Catalog)
    (d : PPath) :
    recScan new_from_mlsd_line cdirServer fuel cat d = none := by
  induction fuel generalizing cat d with
  | zero => exact recScan_zero new_from_mlsd_line cdirServer cat d
  | succ n ih =>
    have hpp : posixPath "." = ({ absolute := false, parts := [] } : PPath) := by
      decide
    have hnode : new_from_mlsd_line d (".", [("type", "cdir")])
        = .ok (some (.dir
            { path := d
              modification_date := none
              error_msg := none
              extra := some (jsonDumpFacts [("type", "cdir")])
              num_children := none })) := by
      have h1 : lookupFact [("type", "cdir")] "modify" = none := rfl
      have h2 : lookupFact [("type", "cdir")] "size" = none := rfl
      have h3 : lookupFact [("type", "cdir")] "type" = some "cdir" := rfl
      simp [new_from_mlsd_line, h1, h2, h3, parse_ftp_date, hpp,
        PPath.join_empty d]
    have hsd : (scan_dir new_from_mlsd_line (cdirServer d) cat d).2
        = .ok [.dir
            { path := d
              modification_date := none
              error_msg := none
              extra := some (jsonDumpFacts [("type", "cdir")])
              num_children := none }] := by
      simp [scan_dir, cdirServer, scanLoop, scanLoopStep, hnode]
    rw [recScan_succ_ok new_from_mlsd_line cdirServer n cat d _ hsd]
    have hchild : dirChildPaths
        [.dir { path := d
                modification_date := none
                error_msg := none
                extra := some (jsonDumpFacts [("type", "cdir")])
                num_children := none }] = [d] := rfl
    rw [hchild]
    exact recScanList_cons_none new_from_mlsd_line cdirServer n _ d [] (ih _ _)

/-- C7: flavour selection — a caller-forced flavour is used verbatim;
otherwise a HELP output containing the word `MLSD` selects the
structured-facts flavour; otherwise a SYST string containing
`Windows_NT`/`Win32NT` selects MS-DOS and one containing `UNIX` selects
Unix; and when none of these apply the run fails with the unknown-flavour
`ValueError` before any directory is visited (`runScan` short-circuits to
the error, producing no scan output). -/
theorem c7_flavour_selection (inp : BasicsInput) :
    (∀ f, inp.forced = some f → selectFlavour inp = .ok f)
    ∧ (∀ msg, inp.forced = none → inp.helpMsg = some msg →
        hasWord "MLSD" msg = true → selectFlavour inp = .ok .mlsd)
    ∧ (inp.forced = none →
        (∀ msg, inp.helpMsg = some msg → hasWord "MLSD" msg = false) →
        (strContains inp.systMsg "Windows_NT" = true
          ∨ strContains inp.systMsg "Win32NT" = true) →
        selectFlavour inp = .ok .msdos)
    ∧ (inp.forced = none →
        (∀ msg, inp.helpMsg = some msg → hasWord "MLSD" msg = false) →
        strContains inp.systMsg "Windows_NT" = false →
        strContains inp.systMsg "Win32NT" = false →
        strContains inp.systMsg "UNIX" = true →
        selectFlavour inp = .ok .unix)
    ∧ (inp.forced = none →
        (∀ msg, inp.helpMsg = some msg → hasWord "MLSD" msg = false) →
        strContains inp.systMsg "Windows_NT" = false →
        strContains inp.systMsg "Win32NT" = false →
        strContains inp.systMsg "UNIX" = false →
        selectFlavour inp = .error ("Unknown flavour " ++ inp.systMsg)
        ∧ ∀ (ι : Type) (newNode : FTPFlavour → PPath → ι → Except PyExc (Option FileNode))
            (server : PPath → DirBehavior ι) (fuel : Nat) (cat : Catalog)
            (root : PPath),
            runScan inp newNode server fuel cat root
              = .error ("Unknown flavour " ++ inp.systMsg)) := by
  obtain ⟨forced, helpMsg, systMsg⟩ := inp
  have hflHelp : ∀ (hn : forced = none)
      (hw : ∀ msg, helpMsg = some msg → hasWord "MLSD" msg = false),
      (match forced, helpMsg with
        | none, some msg => if hasWord "MLSD" msg then some FTPFlavour.mlsd else none
        | f, _ => f) = none := by
    intro hn hw
    subst hn
    cases hhm : helpMsg with
    | none => rfl
    | some msg => simp [hw msg hhm]
  refine ⟨?_, ?_, ?_, ?_, ?_⟩
  · intro f hf
    subst hf
    rfl
  · intro msg hn hm hw
    subst hn
    subst hm
    simp [selectFlavour, hw]
  · intro hn hw hwin
    have h0 := hflHelp hn hw
    rcases hwin with hwin | hwin <;>
      simp [selectFlavour, h0, hwin]
  · intro hn hw hw1 hw2 hu
    have h0 := hflHelp hn hw
    simp [selectFlavour, h0, hw1, hw2, hu]
  · intro hn hw hw1 hw2 hu
    have h0 := hflHelp hn hw
    have hsel : selectFlavour ⟨forced, helpMsg, systMsg⟩
        = .error ("Unknown flavour " ++ systMsg) := by
      simp [selectFlavour, h0, hw1, hw2, hu]
    refine ⟨hsel, ?_⟩
    intro ι newNode server fuel cat root
    simp [runScan, hsel]

/-- C7 witness: the theorem applied at concrete session strings — MLSD in
HELP, a Windows SYST, a Unix SYST, a forced flavour overriding a Windows
SYST, and an unclassifiable SYST (which also makes the run produce no scan
output). -/
theorem c7_flavour_selection_witness :
    selectFlavour ⟨none, some "214 Commands recognized: MLSD MLST RETR",
      "215 UNIX Type: L8"⟩ = .ok .mlsd
    ∧ selectFlavour ⟨none, none, "215 Windows_NT"⟩ = .ok .msdos
    ∧ selectFlavour ⟨none, none, "215 UNIX Type: L8"⟩ = .ok .unix
    ∧ selectFlavour ⟨some .unix, none, "215 Windows_NT"⟩ = .ok .unix
    ∧ selectFlavour ⟨none, none, "215 TOPS-20"⟩
        = .error ("Unknown flavour " ++ "215 TOPS-20") := by
  refine ⟨?_, ?_, ?_, ?_, ?_⟩
  · exact (c7_flavour_selection _).2.1 "214 Commands recognized: MLSD MLST RETR"
      rfl rfl (by decide)
  · exact (c7_flavour_selection _).2.2.1 rfl (fun msg h => Option.noConfusion h)
      (Or.inl (by decide))
  · exact (c7_flavour_selection _).2.2.2.1 rfl (fun msg h => Option.noConfusion h)
      (by decide) (by decide) (by decide)
  · exact (c7_flavour_selection _).1 .unix rfl
  · exact ((c7_flavour_selection _).2.2.2.2 rfl (fun msg h => Option.noConfusion h)
      (by decide) (by decide) (by decide)).1

end FtpScan
